import Mathlib

/-!
Verification development for the workshop-management API
(`application/` Flask service: customers, mechanics, service tickets,
inventory parts).  The definitions below are a shallow embedding of the
route handlers and utilities of the source tree: database tables become
lists of records, SQLAlchemy `query.get` becomes a first-match lookup,
and each route handler becomes a pure function from the database state
(and request data) to a response, paired with the resulting database
state for mutating handlers.
-/

namespace WorkshopApi

/-- An HTTP response reduced to its observable pieces: the status code and
the message/error string carried in the JSON body of that branch. -/
structure Response where
  status : Nat
  body : String
deriving DecidableEq, Repr

/-- A row of the `customer` table (models.py).  Only the columns the
verified handlers inspect are carried; the remaining textual columns
behave exactly like `name`. -/
structure CustomerRec where
  id : Nat
  name : String
deriving DecidableEq, Repr

/-- A row of the `mechanic` table (models.py).  `name` and `specialty`
stand for the plain textual columns, `password` for the hashed secret;
the remaining textual columns behave exactly like `name`. -/
structure MechanicRec where
  id : Nat
  name : String
  specialty : String
  password : String
deriving DecidableEq, Repr

/-- A row of the `inventory` table (models.py); the handlers under
verification only inspect the primary key. -/
structure PartRec where
  id : Nat
  name : String
deriving DecidableEq, Repr

/-- A row of the `service_ticket` table together with its two
association sets (`service_mechanic` and `service_inventory` link
tables), stored as the lists of associated mechanic ids and part ids. -/
structure Ticket where
  id : Nat
  description : String
  vin : String
  customer_id : Nat
  mechanics : List Nat
  parts : List Nat
deriving DecidableEq, Repr

/-- The relational store: one list per table. -/
structure Db where
  customers : List CustomerRec
  mechanics : List MechanicRec
  parts : List PartRec
  tickets : List Ticket
deriving DecidableEq, Repr

/-- `Customer.query.get(id)`: first row with the given primary key. -/
def findCustomer : List CustomerRec → Nat → Option CustomerRec
  | [], _ => none
  | c :: rest, i => if c.id = i then some c else findCustomer rest i

/-- `Mechanic.query.get(id)`: first row with the given primary key. -/
def findMechanic : List MechanicRec → Nat → Option MechanicRec
  | [], _ => none
  | m :: rest, i => if m.id = i then some m else findMechanic rest i

/-- `Inventory.query.get(id)`: first row with the given primary key. -/
def findPart : List PartRec → Nat → Option PartRec
  | [], _ => none
  | p :: rest, i => if p.id = i then some p else findPart rest i

/-- `ServiceTicket.query.get(id)` / `filter_by(id=...).first()`. -/
def findTicket : List Ticket → Nat → Option Ticket
  | [], _ => none
  | t :: rest, i => if t.id = i then some t else findTicket rest i

/-- `mechanic_required` (utils/role_check.py): probe the mechanic table by
the token's subject id; on failure produce the 403 error response the
callers return verbatim. -/
def mechanic_required (db : Db) (uid : Nat) : Option MechanicRec × Option Response :=
  match findMechanic db.mechanics uid with
  | none => (none, some ⟨403, "Only mechanics can perform this action"⟩)
  | some m => (some m, none)

/-- `customer_required` (utils/role_check.py). -/
def customer_required (db : Db) (uid : Nat) : Option CustomerRec × Option Response :=
  match findCustomer db.customers uid with
  | none => (none, some ⟨403, "Only customers can perform this action"⟩)
  | some c => (some c, none)

/-! ## Token service (utils/auth.py) -/

/-- The claims of a JWT as issued by `encode_token`: subject id and
expiry instant (seconds). -/
structure TokenPayload where
  user_id : Nat
  exp : Nat
deriving DecidableEq, Repr

/-- A bearer token as presented by a client.  `sigValid` records whether
the signature verifies against the process signing key and `wellFormed`
whether the token parses at all; both are established by the JWT
library, which is outside this repository. -/
structure PresentedToken where
  payload : TokenPayload
  sigValid : Bool
  wellFormed : Bool
deriving DecidableEq, Repr

/-- Outcome of token verification in `token_required`: the three failure
responses (401 `Token is missing` / `Token expired` / `Invalid token`)
and the success case that passes `user_id` to the handler. -/
inductive AuthResult where
  | missing
  | expired
  | invalid
  | ok (uid : Nat)
deriving DecidableEq, Repr

/-- `encode_token` (utils/auth.py): a signed, well-formed token whose
expiry is one hour (3600 s) after the issue instant `now`. -/
def encode_token (now uid : Nat) : PresentedToken :=
  ⟨⟨uid, now + 3600⟩, true, true⟩

/-- Modelled from the spec: the body of `jwt.decode` is library code that
is not part of this repository; per the spec's Token Service contract a
verified token yields a subject id only if the signature is valid and
the current time is before `exp`, `ExpiredSignatureError` is raised when
the signature is valid but the expiry has passed, and every other
validation failure (bad signature, bad shape) raises
`InvalidTokenError`.  The branches mirror `token_required`'s
missing-token check and its two `except` arms. -/
def verify_token : Option PresentedToken → Nat → AuthResult
  | none, _ => .missing
  | some t, now =>
    if t.sigValid && t.wellFormed then
      if now < t.payload.exp then .ok t.payload.user_id else .expired
    else .invalid

/-! ## Paginated read gateway -/

/-- The pagination metadata each listing route returns alongside its
items (`total`, `pages`, `current_page`). -/
structure Paginated (α : Type) where
  items : List α
  total : Nat
  pages : Nat
  current_page : Int
deriving DecidableEq, Repr

/-- Number of pages reported by the gateway: ceiling of
`total / per_page` (zero when the page size is not positive). -/
def pagesCount (total : Nat) (per_page : Int) : Nat :=
  if per_page ≤ 0 then 0 else (total + per_page.toNat - 1) / per_page.toNat

/-- Modelled from the spec: `Query.paginate(..., error_out=False)` is
flask-sqlalchemy library code that is not part of this repository; per
the spec's Paginated Read Gateway contract an out-of-range page is
silently clamped to an empty result (no error), and an in-range page
returns the slice of at most `per_page` items starting at offset
`(page-1)*per_page`. -/
def paginate {α : Type} (l : List α) (page per_page : Int) : Paginated α :=
  if page < 1 then ⟨[], l.length, pagesCount l.length per_page, page⟩
  else ⟨(l.drop ((page - 1) * per_page).toNat).take per_page.toNat,
        l.length, pagesCount l.length per_page, page⟩

/-- Result of a listing route: an error response, or a 200 with a
paginated body. -/
inductive ListResult (α : Type) where
  | err (r : Response)
  | ok (p : Paginated α)
deriving DecidableEq, Repr

/-- Status code of a listing result. -/
def ListResult.status {α : Type} : ListResult α → Nat
  | .err r => r.status
  | .ok _ => 200

/-- Items of a listing result, when it succeeded. -/
def ListResult.itemsOf {α : Type} : ListResult α → Option (List α)
  | .err _ => none
  | .ok p => some p.items

/-- `get_customers` (customer/routes.py): cap `per_page` at 100, reject
`page < 1` with a 400 validation error, then paginate the customer
table. -/
def get_customers (db : Db) (page per_page : Int) : ListResult CustomerRec :=
  let per_page := min per_page 100
  if page < 1 then .err ⟨400, "Page number must be greater than 0"⟩
  else .ok (paginate db.customers page per_page)

/-- `get_mechanics` (mechanic/routes.py): no bounds check and no cap;
the query parameters go straight to `paginate(error_out=False)`. -/
def get_mechanics (db : Db) (page per_page : Int) : ListResult MechanicRec :=
  .ok (paginate db.mechanics page per_page)

/-- `get_parts` (inventory/routes.py): mechanic-only; no bounds check
and no cap on the pagination parameters. -/
def get_parts (db : Db) (uid : Nat) (page per_page : Int) : ListResult PartRec :=
  match mechanic_required db uid with
  | (_, some e) => .err e
  | (_, none) => .ok (paginate db.parts page per_page)

/-! ## Service-ticket read handlers (service_ticket/routes.py) -/

/-- Result of `get_tickets`: mechanics get the full ticket list,
customers get a paginated list of their own tickets, anyone else a 403
response. -/
inductive TicketsListResult where
  | allTickets (ts : List Ticket)
  | pagedTickets (p : Paginated Ticket)
  | err (r : Response)
deriving DecidableEq, Repr

/-- `get_tickets`: probe the mechanic table (the error component of the
probe is ignored here), then fall back to the customer table, and deny
with 403 only when neither resolves. -/
def get_tickets (db : Db) (uid : Nat) (page per_page : Int) : TicketsListResult :=
  match (mechanic_required db uid).1 with
  | some _ => .allTickets db.tickets
  | none =>
    match (customer_required db uid).1 with
    | some c =>
      .pagedTickets (paginate (db.tickets.filter (fun t => t.customer_id == c.id)) page per_page)
    | none => .err ⟨403, "Access denied: Only customers or mechanics can view tickets"⟩

/-- Result of a single-ticket read: an error response or a 200 carrying
the serialized ticket. -/
inductive TicketReadResult where
  | errResp (r : Response)
  | okTicket (t : Ticket)
deriving DecidableEq, Repr

/-- Status code of a single-ticket read. -/
def TicketReadResult.status : TicketReadResult → Nat
  | .errResp r => r.status
  | .okTicket _ => 200

/-- `get_ticket_by_id`: fetch the ticket (404 via `NotFound` when
absent), then probe mechanic — any mechanic may read any ticket — then
fall back to the customer probe with the ownership check, and 403 when
neither role resolves. -/
def get_ticket_by_id (db : Db) (uid tid : Nat) : TicketReadResult :=
  match findTicket db.tickets tid with
  | none => .errResp ⟨404, "Service ticket with id " ++ toString tid ++ " not found."⟩
  | some t =>
    match (mechanic_required db uid).1 with
    | some _ => .okTicket t
    | none =>
      match (customer_required db uid).1 with
      | some c =>
        if t.customer_id ≠ c.id then
          .errResp ⟨403, "Access denied: This ticket does not belong to you"⟩
        else .okTicket t
      | none => .errResp ⟨403, "Access denied: Only customers or mechanics can view tickets"⟩

/-- Result of `get_parts_of_ticket`: an error response or a 200 carrying
the serialized parts of the ticket. -/
inductive PartsReadResult where
  | errResp (r : Response)
  | okParts (parts : List Nat)
deriving DecidableEq, Repr

/-- Status code of a parts read. -/
def PartsReadResult.status : PartsReadResult → Nat
  | .errResp r => r.status
  | .okParts _ => 200

/-- `get_parts_of_ticket`: unlike the two readers above, this handler
returns `mech_error` as soon as the mechanic probe fails (`if
mech_error: return mech_error`), before the customer branch below it is
reached; the customer branch is kept here exactly as written in the
source. -/
def get_parts_of_ticket (db : Db) (uid tid : Nat) : PartsReadResult :=
  match mechanic_required db uid with
  | (_, some e) => .errResp e
  | (mech, none) =>
    match mech with
    | some _ =>
      match findTicket db.tickets tid with
      | none => .errResp ⟨404, "Service ticket with id " ++ toString tid ++ " not found."⟩
      | some t => .okParts t.parts
    | none =>
      match customer_required db uid with
      | (_, some e) => .errResp e
      | (cust, none) =>
        match cust with
        | some c =>
          match findTicket db.tickets tid with
          | none => .errResp ⟨404, "Service ticket with id " ++ toString tid ++ " not found."⟩
          | some t =>
            if t.customer_id ≠ c.id then .errResp ⟨403, "Unauthorized access"⟩
            else .okParts t.parts
        | none => .errResp ⟨403, "Only customers or mechanics can view parts on service tickets"⟩

/-! ## Relationship manager: mutating ticket handlers -/

/-- Persisting a mutated ticket row: every stored row with the same
primary key takes the mutated value. -/
def updateTickets : List Ticket → Ticket → List Ticket
  | [], _ => []
  | x :: rest, t => (if x.id = t.id then t else x) :: updateTickets rest t

/-- The database after committing a mutated ticket row. -/
def dbUpdateTicket (db : Db) (t : Ticket) : Db :=
  { db with tickets := updateTickets db.tickets t }

/-- Result of a ticket mutation route: an error response, or a 200 with
the route's message and the serialized ticket. -/
inductive TicketMutResult where
  | errResp (r : Response)
  | okTicket (msg : String) (t : Ticket)
deriving DecidableEq, Repr

/-- Status code of a ticket mutation result. -/
def TicketMutResult.status : TicketMutResult → Nat
  | .errResp r => r.status
  | .okTicket _ _ => 200

/-- The `if mech_to_assign not in ticket.mechanics:
ticket.mechanics.append(mech_to_assign)` step of `assign_mechanic`. -/
def assignTo (t : Ticket) (mid : Nat) : Ticket :=
  if mid ∈ t.mechanics then t else { t with mechanics := t.mechanics ++ [mid] }

/-- The `if mech_to_remove in ticket.mechanics:
ticket.mechanics.remove(mech_to_remove)` step of `remove_mechanic`
(Python `list.remove` drops the first occurrence). -/
def removeFrom (t : Ticket) (mid : Nat) : Ticket :=
  if mid ∈ t.mechanics then { t with mechanics := t.mechanics.erase mid } else t

/-- `assign_mechanic` (service_ticket/routes.py): mechanic-only; 404
when the ticket or the mechanic to assign is absent; append the pair to
the association set only when it is not already present; commit and
return the ticket. -/
def assign_mechanic (db : Db) (uid tid mid : Nat) : TicketMutResult × Db :=
  match mechanic_required db uid with
  | (_, some e) => (.errResp e, db)
  | (_, none) =>
    match findTicket db.tickets tid with
    | none => (.errResp ⟨404, "Service ticket with id " ++ toString tid ++ " not found."⟩, db)
    | some t =>
      match findMechanic db.mechanics mid with
      | none => (.errResp ⟨404, "Mechanic with id " ++ toString mid ++ " not found."⟩, db)
      | some _ =>
        (.okTicket "Mechanic assigned successfully." (assignTo t mid),
         dbUpdateTicket db (assignTo t mid))

/-- `remove_mechanic` (service_ticket/routes.py): mechanic-only; 404
when the ticket is absent and 404 when the mechanic row is absent;
remove the pair only when it is present (Python `list.remove` drops the
first occurrence); commit and return the ticket. -/
def remove_mechanic (db : Db) (uid tid mid : Nat) : TicketMutResult × Db :=
  match mechanic_required db uid with
  | (_, some e) => (.errResp e, db)
  | (_, none) =>
    match findTicket db.tickets tid with
    | none => (.errResp ⟨404, "Service ticket with id " ++ toString tid ++ " not found."⟩, db)
    | some t =>
      match findMechanic db.mechanics mid with
      | none => (.errResp ⟨404, "Mechanic with id " ++ toString mid ++ " not found."⟩, db)
      | some _ =>
        (.okTicket "Mechanic removed successfully." (removeFrom t mid),
         dbUpdateTicket db (removeFrom t mid))

/-- `Inventory.query.filter(Inventory.id.in_(part_ids)).all()`: the
stored part rows whose id occurs among the supplied ids, in table
order. -/
def resolved_parts (db : Db) (part_ids : List Nat) : List PartRec :=
  db.parts.filter (fun p => part_ids.contains p.id)

/-- The `for part in parts: if part not in ticket.parts:
ticket.parts.append(part)` loop: fold the resolved part ids over the
association list, appending each id not already present. -/
def appendNew : List Nat → List Nat → List Nat
  | acc, [] => acc
  | acc, p :: ps => appendNew (if p ∈ acc then acc else acc ++ [p]) ps

/-- Result of `add_parts_to_ticket`: an error response, or a 200 with
the `Added N parts ...` message and the ticket's serialized parts. -/
inductive AddPartsResult where
  | errResp (r : Response)
  | okAdded (msg : String) (parts : List Nat)
deriving DecidableEq, Repr

/-- Status code of an add-parts result. -/
def AddPartsResult.status : AddPartsResult → Nat
  | .errResp r => r.status
  | .okAdded _ _ => 200

/-- `add_parts_to_ticket` (service_ticket/routes.py): mechanic-only; 404
when the ticket is absent; resolve `part_ids` against the inventory
table and 404 when nothing resolves; append the resolved ids that are
not yet associated; commit; the success message interpolates
`len(parts)`, the number of resolved rows. -/
def add_parts_to_ticket (db : Db) (uid tid : Nat) (part_ids : List Nat) :
    AddPartsResult × Db :=
  match mechanic_required db uid with
  | (_, some e) => (.errResp e, db)
  | (_, none) =>
    match findTicket db.tickets tid with
    | none => (.errResp ⟨404, "Service ticket with id " ++ toString tid ++ " not found."⟩, db)
    | some t =>
      match resolved_parts db part_ids with
      | [] => (.errResp ⟨404, "No valid parts found for given IDs"⟩, db)
      | ps =>
        let t' := { t with parts := appendNew t.parts ((ps).map (fun p => p.id)) }
        (.okAdded ("Added " ++ toString ps.length ++ " parts to service ticket " ++ toString tid)
           t'.parts,
         dbUpdateTicket db t')

/-! ## Transactional session and the `handle_db_exceptions` wrapper -/

/-- The per-request SQLAlchemy session: the state already persisted in
the store, and the session's working view including uncommitted
mutations. -/
structure Session where
  persisted : Db
  pending : Db
deriving DecidableEq, Repr

/-- `db.session.commit()`: persist the pending mutations. -/
def Session.commit (s : Session) : Session := ⟨s.pending, s.pending⟩

/-- `db.session.rollback()`: discard the pending mutations. -/
def Session.rollback (s : Session) : Session := ⟨s.persisted, s.persisted⟩

/-- How a wrapped route handler terminates, with the session as the
handler left it: a returned response, or one of the exception classes
`handle_db_exceptions` catches. -/
inductive RawOutcome where
  | ok (r : Response) (s : Session)
  | notFound (detail : String) (s : Session)
  | integrityError (detail : String) (s : Session)
  | sqlError (detail : String) (s : Session)
  | otherError (detail : String) (s : Session)
deriving DecidableEq, Repr

/-- `handle_db_exceptions` (error_handlers.py): roll back and answer 400
on `IntegrityError`, answer 404 on `NotFound` — this branch returns
without touching the session — and roll back and answer 500 on
`SQLAlchemyError` and on any other exception. -/
def handle_db_exceptions : RawOutcome → Response × Session
  | .ok r s => (r, s)
  | .integrityError d s => (⟨400, "Integrity error " ++ d⟩, s.rollback)
  | .notFound d s => (⟨404, "Not Found " ++ d⟩, s)
  | .sqlError d s => (⟨500, "Database error " ++ d⟩, s.rollback)
  | .otherError d s => (⟨500, "Unexpected error " ++ d⟩, s.rollback)

/-- The body of `remove_part_from_ticket` (service_ticket/routes.py) at
session level: reads act on the session's pending view; the two absent
rows raise `NotFound`; only the associated case mutates the association
set and commits; the not-associated case returns 404 without mutating. -/
def remove_part_raw (s : Session) (uid tid pid : Nat) : RawOutcome :=
  let db := s.pending
  match mechanic_required db uid with
  | (_, some e) => .ok e s
  | (_, none) =>
    match findTicket db.tickets tid with
    | none => .notFound ("Service ticket with id " ++ toString tid ++ " not found.") s
    | some t =>
      match findPart db.parts pid with
      | none => .notFound ("Part with id " ++ toString pid ++ " not found.") s
      | some _ =>
        if pid ∈ t.parts then
          let s' := Session.commit ⟨s.persisted, dbUpdateTicket db { t with parts := t.parts.erase pid }⟩
          .ok ⟨200, "Part " ++ toString pid ++ " removed from service ticket " ++ toString tid⟩ s'
        else
          .ok ⟨404, "Part not associated with this service ticket"⟩ s

/-- `remove_part_from_ticket` as deployed: the handler body wrapped in
`handle_db_exceptions`. -/
def remove_part_from_ticket (s : Session) (uid tid pid : Nat) : Response × Session :=
  handle_db_exceptions (remove_part_raw s uid tid pid)

/-! ## Mechanic self-update and self-delete (mechanic/routes.py) -/

/-- Stand-in for werkzeug's `generate_password_hash` (library code
outside this repository); only injectivity-free tagging is needed. -/
def hashPassword (v : String) : String := "hashed " ++ v

/-- One `setattr(mechanic, key, value)` step of the update loop; the
password value is hashed first, exactly as in the route.  The modelled
columns are `name`, `specialty` and `password`; other keys are ignored
(they do not name a modelled column). -/
def setMechAttr (m : MechanicRec) (kv : String × String) : MechanicRec :=
  if kv.1 = "name" then { m with name := kv.2 }
  else if kv.1 = "specialty" then { m with specialty := kv.2 }
  else if kv.1 = "password" then { m with password := hashPassword kv.2 }
  else m

/-- Persisting a mutated mechanic row: the first stored row with the
given primary key takes the mutated value. -/
def updateMechanics : List MechanicRec → Nat → MechanicRec → List MechanicRec
  | [], _, _ => []
  | m :: rest, i, m' => if m.id = i then m' :: rest else m :: updateMechanics rest i m'

/-- `db.session.delete(mechanic)`: drop the first stored row with the
given primary key. -/
def deleteFirstMechanic : List MechanicRec → Nat → List MechanicRec
  | [], _ => []
  | m :: rest, i => if m.id = i then rest else m :: deleteFirstMechanic rest i

/-- Result of the mechanic self-service routes: an error response, a 200
with the serialized mechanic (password popped), or a 200 with a plain
message. -/
inductive MechResult where
  | errResp (r : Response)
  | okMech (m : MechanicRec)
  | okMsg (msg : String)
deriving DecidableEq, Repr

/-- Status code of a mechanic-route result. -/
def MechResult.status : MechResult → Nat
  | .errResp r => r.status
  | .okMech _ => 200
  | .okMsg _ => 200

/-- `update_mechanic` (mechanic/routes.py): the only authorization step
compares the token's subject id with the path id; no role probe runs.
404 when the row is absent; otherwise apply the `setattr` loop, commit,
and return the mechanic. -/
def update_mechanic (db : Db) (uid pathId : Nat) (data : List (String × String)) :
    MechResult × Db :=
  if uid ≠ pathId then (.errResp ⟨403, "Unauthorized access"⟩, db)
  else
    match findMechanic db.mechanics pathId with
    | none => (.errResp ⟨404, "Mechanic with id " ++ toString pathId ++ " not found."⟩, db)
    | some m =>
      let m' := data.foldl setMechAttr m
      (.okMech m', { db with mechanics := updateMechanics db.mechanics pathId m' })

/-- `delete_mechanic` (mechanic/routes.py): the only authorization step
compares the token's subject id with the path id; no role probe runs.
404 when the row is absent; otherwise the raw SQL deletes every
`service_mechanic` association row of this mechanic, the row itself is
deleted, and the session commits. -/
def delete_mechanic (db : Db) (uid pathId : Nat) : MechResult × Db :=
  if uid ≠ pathId then
    (.errResp ⟨403, "Unauthorized: You can only delete your own account"⟩, db)
  else
    match findMechanic db.mechanics pathId with
    | none => (.errResp ⟨404, "Mechanic with id " ++ toString pathId ++ " not found."⟩, db)
    | some _ =>
      let db' :=
        { db with
          mechanics := deleteFirstMechanic db.mechanics pathId,
          tickets := db.tickets.map
            (fun t => { t with mechanics := t.mechanics.filter (fun x => x != pathId) }) }
      (.okMsg ("Mechanic with id " ++ toString pathId ++ " deleted successfully."), db')

/-! ## Serialization schemas: which field names reach the wire -/

/-- Columns of the `customer` table (models.py). -/
def customerModelColumns : List String :=
  ["id", "name", "email", "password", "address", "phone"]

/-- Columns of the `mechanic` table (models.py). -/
def mechanicModelColumns : List String :=
  ["id", "name", "email", "password", "address", "phone", "specialty", "salary"]

/-- Modelled from the spec: marshmallow's `SQLAlchemyAutoSchema` dump is
library code outside this repository; per the wire-shape contract a dump
emits the model's columns minus the schema's `load_only` fields minus
its `Meta.exclude` fields. -/
def dumpFields (cols loadOnly excluded : List String) : List String :=
  (cols.filter (fun f => !(loadOnly.contains f))).filter (fun f => !(excluded.contains f))

/-- `CustomerSchema` (customer/schemas.py): `password` is declared
`load_only`, `Meta.exclude` is empty. -/
def customerDumpFields : List String := dumpFields customerModelColumns ["password"] []

/-- `MechanicSchema` (mechanic/schemas.py): no `load_only` field and no
`Meta.exclude` — the auto dump includes `password`. -/
def mechanicAutoDumpFields : List String := dumpFields mechanicModelColumns [] []

/-- `MechanicSchema` (service_ticket/schemas.py), used for the mechanics
nested in ticket responses: `Meta.exclude = ("password",)`. -/
def ticketNestedMechanicFields : List String := dumpFields mechanicModelColumns [] ["password"]

/-- `response_data.pop('password', None)` / the per-item pop in the
mechanic list routes. -/
def popPassword (fields : List String) : List String :=
  fields.filter (fun f => !(f == "password"))

/-- Field names of each serialized item in `get_mechanics`. -/
def get_mechanics_itemFields : List String := popPassword mechanicAutoDumpFields

/-- Field names of each serialized item in `top_mechanics`
(mechanic/routes.py): dump with `mechanics_schema`, then pop
`password` from every item. -/
def top_mechanics_itemFields : List String := popPassword mechanicAutoDumpFields

/-- Field names of the `get_mechanic` single-read payload. -/
def get_mechanic_outputFields : List String := popPassword mechanicAutoDumpFields

/-- Field names of the `create_mechanic` response payload. -/
def create_mechanic_outputFields : List String := popPassword mechanicAutoDumpFields

/-- Field names of the `update_mechanic` response payload. -/
def update_mechanic_outputFields : List String := popPassword mechanicAutoDumpFields

/-- Field names of each customer item in `get_customers`. -/
def get_customers_itemFields : List String := customerDumpFields

/-- Field names of the `get_customer` single-read payload. -/
def get_customer_outputFields : List String := customerDumpFields

/-! ## Concrete sample stores used to evaluate the handlers -/

/-- The empty store. -/
def dbEmpty : Db := ⟨[], [], [], []⟩

/-- A store where subject id 7 resolves only to a customer, who owns
ticket 3 with part 2 on it. -/
def dbOnlyCustomer : Db :=
  { customers := [⟨7, "Ann"⟩],
    mechanics := [],
    parts := [⟨2, "bolt"⟩],
    tickets := [⟨3, "brake check", "VIN3", 7, [], [2]⟩] }

/-- A store with one mechanic (id 1), part 1, and ticket 1 that already
has part 1 associated. -/
def dbPartAlreadyOn : Db :=
  { customers := [],
    mechanics := [⟨1, "Bob", "brakes", "pw"⟩],
    parts := [⟨1, "bolt"⟩],
    tickets := [⟨1, "fix", "VINA", 2, [], [1]⟩] }

/-- A store with mechanic 1 and ticket 10, but no mechanic 5. -/
def dbNoMechanicFive : Db :=
  { customers := [],
    mechanics := [⟨1, "Bob", "brakes", "pw"⟩],
    parts := [],
    tickets := [⟨10, "oil change", "VIN10", 5, [], []⟩] }

/-- A store with mechanics 1 and 5 and ticket 10 with no mechanic
associated. -/
def dbPairAbsent : Db :=
  { customers := [],
    mechanics := [⟨1, "Bob", "brakes", "pw"⟩, ⟨5, "Eve", "tires", "pw"⟩],
    parts := [],
    tickets := [⟨10, "oil change", "VIN10", 5, [], []⟩] }

/-- A store with customers 7 and 8, mechanic 1, and ticket 2 owned by
customer 8. -/
def dbOwnership : Db :=
  { customers := [⟨7, "Ann"⟩, ⟨8, "Ben"⟩],
    mechanics := [⟨1, "Bob", "brakes", "pw"⟩],
    parts := [],
    tickets := [⟨2, "tune-up", "VIN2", 8, [], []⟩] }

/-- A store with mechanics 1 and 5, part 2, and ticket 4 with empty
association sets. -/
def dbFresh : Db :=
  { customers := [],
    mechanics := [⟨1, "Bob", "brakes", "pw"⟩, ⟨5, "Eve", "tires", "pw"⟩],
    parts := [⟨2, "bolt"⟩],
    tickets := [⟨4, "fix", "VINB", 9, [], []⟩] }

/-- A store whose subject id 3 is both listed as a customer and as a
mechanic row, with ticket 1 carrying the mechanic association. -/
def dbSelfService : Db :=
  { customers := [⟨3, "Cai"⟩],
    mechanics := [⟨3, "Mia", "engines", "pw"⟩],
    parts := [],
    tickets := [⟨1, "swap", "VINC", 3, [3], []⟩] }

/-- A session holding an uncommitted pending change (part 1 added but
not yet committed). -/
def dirtySession : Session := ⟨dbEmpty, ⟨[], [], [⟨1, "bolt"⟩], []⟩⟩

/-! ## Helper lemmas -/

theorem findTicket_eq_id {l : List Ticket} {i : Nat} {t : Ticket}
    (h : findTicket l i = some t) : t.id = i := by
  induction l with
  | nil => simp [findTicket] at h
  | cons x rest ih =>
    rw [findTicket] at h
    by_cases hx : x.id = i
    · rw [if_pos hx] at h
      cases h
      exact hx
    · rw [if_neg hx] at h
      exact ih h

theorem findTicket_mem {l : List Ticket} {i : Nat} {t : Ticket}
    (h : findTicket l i = some t) : t ∈ l := by
  induction l with
  | nil => simp [findTicket] at h
  | cons x rest ih =>
    rw [findTicket] at h
    by_cases hx : x.id = i
    · rw [if_pos hx] at h
      cases h
      exact List.mem_cons_self _ _
    · rw [if_neg hx] at h
      exact List.mem_cons_of_mem _ (ih h)

theorem findTicket_updateTickets {l : List Ticket} {i : Nat} {t t' : Ticket}
    (h : findTicket l i = some t) (hid : t'.id = i) :
    findTicket (updateTickets l t') i = some t' := by
  induction l with
  | nil => simp [findTicket] at h
  | cons x rest ih =>
    rw [findTicket] at h
    rw [updateTickets]
    by_cases hx : x.id = i
    · rw [if_pos (by rw [hid]; exact hx)]
      rw [findTicket, if_pos hid]
    · rw [if_neg hx] at h
      rw [if_neg (by rw [hid]; exact hx)]
      rw [findTicket, if_neg hx]
      exact ih h

theorem updateTickets_idem (l : List Ticket) (t : Ticket) :
    updateTickets (updateTickets l t) t = updateTickets l t := by
  induction l with
  | nil => rfl
  | cons x rest ih =>
    by_cases hx : x.id = t.id <;> simp [updateTickets, hx, ih]

theorem updateTickets_eq_self {l : List Ticket} {t : Ticket}
    (h : ∀ x ∈ l, x.id = t.id → x = t) : updateTickets l t = l := by
  induction l with
  | nil => rfl
  | cons x rest ih =>
    rw [updateTickets]
    by_cases hx : x.id = t.id
    · rw [if_pos hx, h x (List.mem_cons_self _ _) hx,
          ih (fun y hy => h y (List.mem_cons_of_mem _ hy))]
    · rw [if_neg hx, ih (fun y hy => h y (List.mem_cons_of_mem _ hy))]

theorem pairwise_id_eq {l : List Ticket}
    (hp : l.Pairwise (fun a b => a.id ≠ b.id)) {x y : Ticket}
    (hx : x ∈ l) (hy : y ∈ l) (hid : x.id = y.id) : x = y := by
  induction l with
  | nil => cases hx
  | cons z rest ih =>
    rw [List.pairwise_cons] at hp
    rcases List.mem_cons.mp hx with rfl | hx'
    · rcases List.mem_cons.mp hy with rfl | hy'
      · rfl
      · exact absurd hid (hp.1 y hy')
    · rcases List.mem_cons.mp hy with rfl | hy'
      · exact absurd hid.symm (hp.1 x hx')
      · exact ih hp.2 hx' hy'

theorem appendNew_mem (ps acc : List Nat) (x : Nat) :
    x ∈ appendNew acc ps ↔ x ∈ acc ∨ x ∈ ps := by
  induction ps generalizing acc with
  | nil =>
    rw [appendNew]
    simp
  | cons p rest ih =>
    rw [appendNew]
    by_cases hp : p ∈ acc
    · rw [if_pos hp, ih]
      constructor
      · rintro (h | h)
        · exact Or.inl h
        · exact Or.inr (List.mem_cons_of_mem _ h)
      · rintro (h | h)
        · exact Or.inl h
        · rcases List.mem_cons.mp h with rfl | h'
          · exact Or.inl hp
          · exact Or.inr h'
    · rw [if_neg hp, ih]
      constructor
      · rintro (h | h)
        · rcases List.mem_append.mp h with h' | h'
          · exact Or.inl h'
          · exact Or.inr (List.mem_cons.mpr (Or.inl (List.mem_singleton.mp h')))
        · exact Or.inr (List.mem_cons_of_mem _ h)
      · rintro (h | h)
        · exact Or.inl (List.mem_append.mpr (Or.inl h))
        · rcases List.mem_cons.mp h with rfl | h'
          · exact Or.inl (List.mem_append.mpr (Or.inr (List.mem_singleton.mpr rfl)))
          · exact Or.inr h'

theorem mechanic_required_found {db : Db} {uid : Nat} {m : MechanicRec}
    (h : findMechanic db.mechanics uid = some m) :
    mechanic_required db uid = (some m, none) := by
  rw [mechanic_required, h]

theorem mechanic_required_missing {db : Db} {uid : Nat}
    (h : findMechanic db.mechanics uid = none) :
    mechanic_required db uid = (none, some ⟨403, "Only mechanics can perform this action"⟩) := by
  rw [mechanic_required, h]

theorem customer_required_found {db : Db} {uid : Nat} {c : CustomerRec}
    (h : findCustomer db.customers uid = some c) :
    customer_required db uid = (some c, none) := by
  rw [customer_required, h]

theorem assignTo_id (t : Ticket) (mid : Nat) : (assignTo t mid).id = t.id := by
  rw [assignTo]
  split <;> rfl

theorem mem_assignTo (t : Ticket) (mid : Nat) : mid ∈ (assignTo t mid).mechanics := by
  rw [assignTo]
  split
  · assumption
  · exact List.mem_append.mpr (Or.inr (List.mem_singleton.mpr rfl))

theorem assignTo_of_mem {t : Ticket} {mid : Nat} (h : mid ∈ t.mechanics) :
    assignTo t mid = t := by
  rw [assignTo, if_pos h]

theorem removeFrom_of_not_mem {t : Ticket} {mid : Nat} (h : mid ∉ t.mechanics) :
    removeFrom t mid = t := by
  rw [removeFrom, if_neg h]

/-! ## Claim theorems -/

/-- C1: the fallback chain (probe Mechanic first, then Customer, deny
only when neither resolves) does hold for `get_tickets` and
`get_ticket_by_id`, but `get_parts_of_ticket` returns the mechanic
probe's 403 response as soon as that probe fails.  In `dbOnlyCustomer`,
subject 7 is an authenticated customer owning ticket 3: the list read
and the single-ticket read both succeed through the customer fallback,
yet the parts read of that very ticket is rejected by the mechanic
probe alone. -/
theorem C1_parts_read_rejected_at_mechanic_probe :
    get_parts_of_ticket dbOnlyCustomer 7 3 =
      .errResp ⟨403, "Only mechanics can perform this action"⟩ ∧
    get_ticket_by_id dbOnlyCustomer 7 3 =
      .okTicket ⟨3, "brake check", "VIN3", 7, [], [2]⟩ ∧
    get_tickets dbOnlyCustomer 7 1 10 =
      .pagedTickets ⟨[⟨3, "brake check", "VIN3", 7, [], [2]⟩], 1, 1, 1⟩ ∧
    findCustomer dbOnlyCustomer.customers 7 = some ⟨7, "Ann"⟩ ∧
    findMechanic dbOnlyCustomer.mechanics 7 = none :=
  ⟨rfl, rfl, rfl, rfl, rfl⟩

/-- C3 counterexample: in `dbNoMechanicFive` the ticket (id 10) exists
but mechanic id 5 does not; the claim says this case silently no-ops,
yet `remove_mechanic` answers NotFound (404) for the absent mechanic
id. -/
theorem C3_cex_absent_mechanic_404 :
    (remove_mechanic dbNoMechanicFive 1 10 5).1 =
      .errResp ⟨404, "Mechanic with id 5 not found."⟩ ∧
    (findTicket dbNoMechanicFive.tickets 10).isSome = true :=
  ⟨rfl, rfl⟩

/-- C3 amended: `remove_mechanic` fails NotFound when the ticket is
absent or when the mechanic id does not resolve to a mechanic row; when
both rows exist but the pair is not associated, it silently no-ops,
returning the unchanged ticket and leaving the store untouched. -/
theorem C3_remove_mechanic_amended (db : Db) (uid tid mid : Nat) (mu : MechanicRec)
    (hu : findMechanic db.mechanics uid = some mu) :
    (findTicket db.tickets tid = none →
      remove_mechanic db uid tid mid =
        (.errResp ⟨404, "Service ticket with id " ++ toString tid ++ " not found."⟩, db)) ∧
    (∀ t, findTicket db.tickets tid = some t → findMechanic db.mechanics mid = none →
      remove_mechanic db uid tid mid =
        (.errResp ⟨404, "Mechanic with id " ++ toString mid ++ " not found."⟩, db)) ∧
    (∀ t m, findTicket db.tickets tid = some t → findMechanic db.mechanics mid = some m →
      mid ∉ t.mechanics → db.tickets.Pairwise (fun a b => a.id ≠ b.id) →
      remove_mechanic db uid tid mid =
        (.okTicket "Mechanic removed successfully." t, db)) := by
  refine ⟨?_, ?_, ?_⟩
  · intro ht
    simp only [remove_mechanic, mechanic_required_found hu, ht]
  · intro t ht hm
    simp only [remove_mechanic, mechanic_required_found hu, ht, hm]
  · intro t m ht hm hmem hp
    have hself : updateTickets db.tickets t = db.tickets :=
      updateTickets_eq_self (fun x hx hid => pairwise_id_eq hp hx (findTicket_mem ht) hid)
    simp only [remove_mechanic, mechanic_required_found hu, ht, hm,
               removeFrom_of_not_mem hmem, dbUpdateTicket, hself]

/-- C3 amended, evaluated: in `dbPairAbsent` both rows exist and the
pair (ticket 10, mechanic 5) is not associated; the operation no-ops
with a 200. -/
theorem C3_remove_mechanic_amended_witness :
    remove_mechanic dbPairAbsent 1 10 5 =
      (.okTicket "Mechanic removed successfully." ⟨10, "oil change", "VIN10", 5, [], []⟩,
       dbPairAbsent) :=
  (C3_remove_mechanic_amended dbPairAbsent 1 10 5 ⟨1, "Bob", "brakes", "pw"⟩ rfl).2.2
    ⟨10, "oil change", "VIN10", 5, [], []⟩ ⟨5, "Eve", "tires", "pw"⟩ rfl rfl
    (by decide) (by decide)

/-- C5: verification yields a subject id exactly when the signature is
valid, the token parses, and the current time is strictly before the
recorded expiry; the three failure outcomes (missing / expired with a
valid signature / invalid for any other failure) are the distinct
remaining constructors; and a token issued at `t0` carries expiry
`t0 + 3600` (one hour), verifying before that instant and failing as
expired from then on. -/
theorem C5_token_verification (tok : Option PresentedToken) (now t0 uid : Nat) :
    ((∃ u, verify_token tok now = .ok u) ↔
      ∃ t, tok = some t ∧ t.sigValid = true ∧ t.wellFormed = true ∧ now < t.payload.exp) ∧
    verify_token none now = .missing ∧
    (∀ t, tok = some t → t.sigValid = true → t.wellFormed = true → t.payload.exp ≤ now →
      verify_token tok now = .expired) ∧
    (∀ t, tok = some t → (t.sigValid = false ∨ t.wellFormed = false) →
      verify_token tok now = .invalid) ∧
    (encode_token t0 uid).payload.exp = t0 + 3600 ∧
    (now < t0 + 3600 → verify_token (some (encode_token t0 uid)) now = .ok uid) ∧
    (t0 + 3600 ≤ now → verify_token (some (encode_token t0 uid)) now = .expired) := by
  refine ⟨⟨?_, ?_⟩, rfl, ?_, ?_, rfl, ?_, ?_⟩
  · rintro ⟨u, hu⟩
    cases tok with
    | none => simp [verify_token] at hu
    | some t =>
      simp only [verify_token] at hu
      by_cases hs : t.sigValid && t.wellFormed
      · rw [if_pos hs] at hu
        by_cases hlt : now < t.payload.exp
        · rcases Bool.and_eq_true .. |>.mp hs with ⟨h1, h2⟩
          exact ⟨t, rfl, h1, h2, hlt⟩
        · rw [if_neg hlt] at hu
          cases hu
      · rw [if_neg hs] at hu
        cases hu
  · rintro ⟨t, rfl, h1, h2, h3⟩
    exact ⟨t.payload.user_id, by simp [verify_token, h1, h2, h3]⟩
  · rintro t rfl hs hw hexp
    simp [verify_token, hs, hw, Nat.not_lt.mpr hexp]
  · rintro t rfl (hs | hw)
    · simp [verify_token, hs]
    · simp [verify_token, hw]
  · intro h
    simp [verify_token, encode_token, h]
  · intro h
    simp [verify_token, encode_token, Nat.not_lt.mpr h]

/-- C4: when a ticket exists, a subject that does not resolve as a
mechanic but resolves as a customer who is not the ticket's owner is
denied with 403 by the ownership check of `get_ticket_by_id`, while any
subject resolving as a mechanic reads the ticket; the handler is a pure
function of the current store, so the check is re-derived from the
store on every access. -/
theorem C4_customer_ownership (db : Db) (uid tid : Nat) (t : Ticket) (c : CustomerRec)
    (ht : findTicket db.tickets tid = some t) :
    (findMechanic db.mechanics uid = none →
      findCustomer db.customers uid = some c →
      t.customer_id ≠ c.id →
      get_ticket_by_id db uid tid =
        .errResp ⟨403, "Access denied: This ticket does not belong to you"⟩) ∧
    (∀ m, findMechanic db.mechanics uid = some m →
      get_ticket_by_id db uid tid = .okTicket t) := by
  constructor
  · intro hnm hc hown
    simp only [get_ticket_by_id, ht, mechanic_required_missing hnm,
               customer_required_found hc]
    rw [if_pos hown]
  · intro m hm
    simp only [get_ticket_by_id, ht, mechanic_required_found hm]

/-- C4, evaluated: in `dbOwnership` customer 7 is denied ticket 2 owned
by customer 8, while mechanic 1 reads it. -/
theorem C4_customer_ownership_witness :
    get_ticket_by_id dbOwnership 7 2 =
      .errResp ⟨403, "Access denied: This ticket does not belong to you"⟩ ∧
    get_ticket_by_id dbOwnership 1 2 = .okTicket ⟨2, "tune-up", "VIN2", 8, [], []⟩ :=
  ⟨(C4_customer_ownership dbOwnership 7 2 ⟨2, "tune-up", "VIN2", 8, [], []⟩
      ⟨7, "Ann"⟩ rfl).1 rfl rfl (by decide),
   (C4_customer_ownership dbOwnership 1 2 ⟨2, "tune-up", "VIN2", 8, [], []⟩
      ⟨7, "Ann"⟩ rfl).2 ⟨1, "Bob", "brakes", "pw"⟩ rfl⟩

/-- C7: with both rows present, applying `assign_mechanic` twice yields
the same store as applying it once (the pair is a set member: an
already-present pair is not appended again), and the handler fails
NotFound when the ticket or the mechanic id is absent. -/
theorem C7_assign_mechanic_idempotent (db : Db) (uid tid mid : Nat) (mu : MechanicRec)
    (hu : findMechanic db.mechanics uid = some mu) :
    (∀ t m, findTicket db.tickets tid = some t → findMechanic db.mechanics mid = some m →
      (assign_mechanic (assign_mechanic db uid tid mid).2 uid tid mid).2 =
        (assign_mechanic db uid tid mid).2) ∧
    (findTicket db.tickets tid = none →
      assign_mechanic db uid tid mid =
        (.errResp ⟨404, "Service ticket with id " ++ toString tid ++ " not found."⟩, db)) ∧
    (∀ t, findTicket db.tickets tid = some t → findMechanic db.mechanics mid = none →
      assign_mechanic db uid tid mid =
        (.errResp ⟨404, "Mechanic with id " ++ toString mid ++ " not found."⟩, db)) := by
  refine ⟨?_, ?_, ?_⟩
  · intro t m ht hm
    have h1 : assign_mechanic db uid tid mid =
        (.okTicket "Mechanic assigned successfully." (assignTo t mid),
         dbUpdateTicket db (assignTo t mid)) := by
      simp only [assign_mechanic, mechanic_required_found hu, ht, hm]
    rw [h1]
    have hu' : findMechanic (dbUpdateTicket db (assignTo t mid)).mechanics uid = some mu := hu
    have hm' : findMechanic (dbUpdateTicket db (assignTo t mid)).mechanics mid = some m := hm
    have ht' : findTicket (dbUpdateTicket db (assignTo t mid)).tickets tid =
        some (assignTo t mid) :=
      findTicket_updateTickets ht (by rw [assignTo_id]; exact findTicket_eq_id ht)
    have h2 : assign_mechanic (dbUpdateTicket db (assignTo t mid)) uid tid mid =
        (.okTicket "Mechanic assigned successfully." (assignTo (assignTo t mid) mid),
         dbUpdateTicket (dbUpdateTicket db (assignTo t mid))
           (assignTo (assignTo t mid) mid)) := by
      simp only [assign_mechanic, mechanic_required_found hu', ht', hm']
    rw [h2, assignTo_of_mem (mem_assignTo t mid)]
    simp only [dbUpdateTicket]
    rw [updateTickets_idem]
  · intro ht
    simp only [assign_mechanic, mechanic_required_found hu, ht]
  · intro t ht hm
    simp only [assign_mechanic, mechanic_required_found hu, ht, hm]

/-- C7, evaluated: in `dbFresh` assigning mechanic 5 to ticket 4 twice
equals assigning once, and the two NotFound cases answer 404. -/
theorem C7_assign_mechanic_idempotent_witness :
    (assign_mechanic (assign_mechanic dbFresh 1 4 5).2 1 4 5).2 =
      (assign_mechanic dbFresh 1 4 5).2 ∧
    assign_mechanic dbFresh 1 99 5 =
      (.errResp ⟨404, "Service ticket with id 99 not found."⟩, dbFresh) ∧
    assign_mechanic dbFresh 1 4 77 =
      (.errResp ⟨404, "Mechanic with id 77 not found."⟩, dbFresh) :=
  ⟨(C7_assign_mechanic_idempotent dbFresh 1 4 5 ⟨1, "Bob", "brakes", "pw"⟩ rfl).1
      ⟨4, "fix", "VINB", 9, [], []⟩ ⟨5, "Eve", "tires", "pw"⟩ rfl rfl,
   (C7_assign_mechanic_idempotent dbFresh 1 99 5 ⟨1, "Bob", "brakes", "pw"⟩ rfl).2.1 rfl,
   (C7_assign_mechanic_idempotent dbFresh 1 4 77 ⟨1, "Bob", "brakes", "pw"⟩ rfl).2.2
      ⟨4, "fix", "VINB", 9, [], []⟩ rfl rfl⟩

/-- C2 counterexample: in `dbPartAlreadyOn` part 1 exists and is already
associated with ticket 1; `add_parts_to_ticket` answers 200 with the
message reporting count 1 (`len(parts)`, the resolved rows) while zero
associations are actually created — the store is unchanged. -/
theorem C2_cex_reported_count_exceeds_created :
    (add_parts_to_ticket dbPartAlreadyOn 1 1 [1]).1 =
      .okAdded "Added 1 parts to service ticket 1" [1] ∧
    (add_parts_to_ticket dbPartAlreadyOn 1 1 [1]).2 = dbPartAlreadyOn :=
  ⟨rfl, rfl⟩

/-- C2 amended: `add_parts_to_ticket` fails NotFound (404) when the
ticket is absent, fails with 404 `No valid parts found for given IDs`
when none of the supplied ids resolve, and otherwise adds exactly the
resolvable ids not already associated (the new association list holds
an id iff it was already associated or resolved) while the response
message reports the number of ids that resolved — which may exceed the
number of associations actually created. -/
theorem C2_add_parts_amended (db : Db) (uid tid : Nat) (ids : List Nat) (mu : MechanicRec)
    (hu : findMechanic db.mechanics uid = some mu) :
    (findTicket db.tickets tid = none →
      add_parts_to_ticket db uid tid ids =
        (.errResp ⟨404, "Service ticket with id " ++ toString tid ++ " not found."⟩, db)) ∧
    (∀ t, findTicket db.tickets tid = some t → resolved_parts db ids = [] →
      add_parts_to_ticket db uid tid ids =
        (.errResp ⟨404, "No valid parts found for given IDs"⟩, db)) ∧
    (∀ t, findTicket db.tickets tid = some t → resolved_parts db ids ≠ [] →
      ∃ plist,
        (add_parts_to_ticket db uid tid ids).1 =
          .okAdded ("Added " ++ toString (resolved_parts db ids).length ++
              " parts to service ticket " ++ toString tid) plist ∧
        (∀ x, x ∈ plist ↔ x ∈ t.parts ∨ x ∈ (resolved_parts db ids).map (fun p => p.id)) ∧
        (add_parts_to_ticket db uid tid ids).2 = dbUpdateTicket db { t with parts := plist }) := by
  refine ⟨?_, ?_, ?_⟩
  · intro ht
    simp only [add_parts_to_ticket, mechanic_required_found hu, ht]
  · intro t ht hps
    simp only [add_parts_to_ticket, mechanic_required_found hu, ht, hps]
  · intro t ht hne
    cases hps : resolved_parts db ids with
    | nil => exact absurd hps hne
    | cons p ps =>
      refine ⟨appendNew t.parts ((p :: ps).map (fun q => q.id)), ?_, ?_, ?_⟩
      · simp only [add_parts_to_ticket, mechanic_required_found hu, ht, hps]
      · intro x
        exact appendNew_mem _ _ _
      · simp only [add_parts_to_ticket, mechanic_required_found hu, ht, hps]

/-- C2 amended, evaluated: in `dbFresh` the request supplies ids
`[2, 999]`, of which only part 2 exists; the response reports count 1
and the ticket ends with exactly part 2 associated. -/
theorem C2_add_parts_amended_witness :
    ∃ plist,
      (add_parts_to_ticket dbFresh 1 4 [2, 999]).1 =
        .okAdded ("Added " ++ toString (resolved_parts dbFresh [2, 999]).length ++
            " parts to service ticket " ++ toString 4) plist ∧
      (∀ x, x ∈ plist ↔
        x ∈ (⟨4, "fix", "VINB", 9, [], []⟩ : Ticket).parts ∨
        x ∈ (resolved_parts dbFresh [2, 999]).map (fun p => p.id)) ∧
      (add_parts_to_ticket dbFresh 1 4 [2, 999]).2 =
        dbUpdateTicket dbFresh { (⟨4, "fix", "VINB", 9, [], []⟩ : Ticket) with parts := plist } :=
  (C2_add_parts_amended dbFresh 1 4 [2, 999] ⟨1, "Bob", "brakes", "pw"⟩ rfl).2.2
    ⟨4, "fix", "VINB", 9, [], []⟩ rfl (by decide)

/-- C5, evaluated: a token issued at time 0 for subject 7 verifies at
time 100, is expired at time 3600, and a missing token is reported
missing. -/
theorem C5_token_verification_witness :
    verify_token (some (encode_token 0 7)) 100 = .ok 7 ∧
    verify_token (some (encode_token 0 7)) 3600 = .expired ∧
    verify_token none 0 = .missing :=
  ⟨(C5_token_verification (some (encode_token 0 7)) 100 0 7).2.2.2.2.2.1 (by decide),
   (C5_token_verification (some (encode_token 0 7)) 3600 0 7).2.2.2.2.2.2 (by decide),
   (C5_token_verification none 0 0 7).2.1⟩

/-- Every run of the wrapped `remove_part_from_ticket` either fails with
a non-200 status and leaves the session exactly as it was, or succeeds
with 200 and ends in a committed session. -/
theorem remove_part_run_cases (s : Session) (uid tid pid : Nat) :
    ((remove_part_from_ticket s uid tid pid).1.status ≠ 200 ∧
     (remove_part_from_ticket s uid tid pid).2 = s) ∨
    ((remove_part_from_ticket s uid tid pid).1.status = 200 ∧
     ∃ db2, (remove_part_from_ticket s uid tid pid).2 = ⟨db2, db2⟩) := by
  cases hfm : findMechanic s.pending.mechanics uid with
  | none =>
    left
    have hrun : remove_part_from_ticket s uid tid pid =
        (⟨403, "Only mechanics can perform this action"⟩, s) := by
      simp only [remove_part_from_ticket, remove_part_raw, mechanic_required_missing hfm,
                 handle_db_exceptions]
    rw [hrun]
    exact ⟨show (403 : Nat) ≠ 200 by decide, rfl⟩
  | some m =>
    cases hft : findTicket s.pending.tickets tid with
    | none =>
      left
      have hrun : remove_part_from_ticket s uid tid pid =
          (⟨404, "Not Found " ++ ("Service ticket with id " ++ toString tid ++ " not found.")⟩,
           s) := by
        simp only [remove_part_from_ticket, remove_part_raw, mechanic_required_found hfm,
                   hft, handle_db_exceptions]
      rw [hrun]
      exact ⟨show (404 : Nat) ≠ 200 by decide, rfl⟩
    | some t =>
      cases hfp : findPart s.pending.parts pid with
      | none =>
        left
        have hrun : remove_part_from_ticket s uid tid pid =
            (⟨404, "Not Found " ++ ("Part with id " ++ toString pid ++ " not found.")⟩, s) := by
          simp only [remove_part_from_ticket, remove_part_raw, mechanic_required_found hfm,
                     hft, hfp, handle_db_exceptions]
        rw [hrun]
        exact ⟨show (404 : Nat) ≠ 200 by decide, rfl⟩
      | some p =>
        by_cases hin : pid ∈ t.parts
        · right
          have hrun : remove_part_from_ticket s uid tid pid =
              (⟨200, "Part " ++ toString pid ++ " removed from service ticket " ++ toString tid⟩,
               Session.commit ⟨s.persisted,
                 dbUpdateTicket s.pending { t with parts := t.parts.erase pid }⟩) := by
            simp only [remove_part_from_ticket, remove_part_raw, mechanic_required_found hfm,
                       hft, hfp]
            rw [if_pos hin]
            simp only [handle_db_exceptions]
          rw [hrun]
          exact ⟨rfl, ⟨_, rfl⟩⟩
        · left
          have hrun : remove_part_from_ticket s uid tid pid =
              (⟨404, "Part not associated with this service ticket"⟩, s) := by
            simp only [remove_part_from_ticket, remove_part_raw, mechanic_required_found hfm,
                       hft, hfp]
            rw [if_neg hin]
            simp only [handle_db_exceptions]
          rw [hrun]
          exact ⟨show (404 : Nat) ≠ 200 by decide, rfl⟩

/-- C6 counterexample: the `NotFound` branch of `handle_db_exceptions`
returns the 404 response without rolling the session back — on a
session holding an uncommitted pending change, the pending state
survives into the returned pair instead of being reset to the persisted
state. -/
theorem C6_cex_notFound_skips_rollback :
    (handle_db_exceptions (.notFound "x" dirtySession)).2 = dirtySession ∧
    dirtySession.pending ≠ dirtySession.persisted ∧
    (handle_db_exceptions (.notFound "x" dirtySession)).2 ≠ Session.rollback dirtySession :=
  ⟨rfl, by decide, by decide⟩

/-- C6 amended: mutating handlers persist nothing on failure — shown for
the wrapped `remove_part_from_ticket`: on any non-200 outcome the
session is exactly as before the request (every failure check precedes
the mutation and the commit is the final step), and on success the
session ends committed; the wrapper rolls the transaction back on
`IntegrityError`, `SQLAlchemyError` and unexpected exceptions, but its
`NotFound` branch returns without a rollback. -/
theorem C6_remove_part_amended (s : Session) (uid tid pid : Nat) :
    ((remove_part_from_ticket s uid tid pid).1.status ≠ 200 →
      (remove_part_from_ticket s uid tid pid).2 = s) ∧
    ((remove_part_from_ticket s uid tid pid).1.status = 200 →
      (remove_part_from_ticket s uid tid pid).2.pending =
        (remove_part_from_ticket s uid tid pid).2.persisted) ∧
    (∀ d s2, (handle_db_exceptions (.integrityError d s2)).2 = Session.rollback s2) ∧
    (∀ d s2, (handle_db_exceptions (.sqlError d s2)).2 = Session.rollback s2) ∧
    (∀ d s2, (handle_db_exceptions (.otherError d s2)).2 = Session.rollback s2) := by
  refine ⟨?_, ?_, fun d s2 => rfl, fun d s2 => rfl, fun d s2 => rfl⟩
  · intro h
    rcases remove_part_run_cases s uid tid pid with ⟨_, hsess⟩ | ⟨h200, _⟩
    · exact hsess
    · exact absurd h200 h
  · intro h
    rcases remove_part_run_cases s uid tid pid with ⟨hne, _⟩ | ⟨_, db2, heq⟩
    · exact absurd h hne
    · rw [heq]

/-- C6 amended, evaluated: a failing run (role check fails) leaves a
clean session untouched, and the `IntegrityError` branch rolls back. -/
theorem C6_remove_part_amended_witness :
    (remove_part_from_ticket ⟨dbEmpty, dbEmpty⟩ 0 0 0).2 = ⟨dbEmpty, dbEmpty⟩ ∧
    (handle_db_exceptions (.integrityError "d" dirtySession)).2 =
      Session.rollback dirtySession :=
  ⟨(C6_remove_part_amended ⟨dbEmpty, dbEmpty⟩ 0 0 0).1 (by decide),
   (C6_remove_part_amended ⟨dbEmpty, dbEmpty⟩ 0 0 0).2.2.1 "d" dirtySession⟩

/-- C8: the customer listing rejects `page < 1` with a 400 validation
error and caps the page size at 100 items, while the mechanic and
inventory listings silently answer 200 with an empty item list for an
out-of-range page (below 1 or past the end) and pass the page size
through uncapped. -/
theorem C8_pagination_policy (db : Db) (uid : Nat) (page per_page : Int) (mu : MechanicRec)
    (hu : findMechanic db.mechanics uid = some mu) :
    (page < 1 → get_customers db page per_page =
      .err ⟨400, "Page number must be greater than 0"⟩) ∧
    (∀ p, get_customers db page per_page = .ok p → p.items.length ≤ 100) ∧
    (page < 1 → (get_mechanics db page per_page).itemsOf = some [] ∧
      (get_parts db uid page per_page).itemsOf = some []) ∧
    (1 ≤ page → db.mechanics.length ≤ ((page - 1) * per_page).toNat →
      (get_mechanics db page per_page).itemsOf = some []) ∧
    (per_page.toNat ≤ db.mechanics.length →
      (get_mechanics db 1 per_page).itemsOf = some (db.mechanics.take per_page.toNat) ∧
      (db.mechanics.take per_page.toNat).length = per_page.toNat) ∧
    (per_page.toNat ≤ db.parts.length →
      (get_parts db uid 1 per_page).itemsOf = some (db.parts.take per_page.toNat)) := by
  have hone : ¬ ((1 : Int) < 1) := by norm_num
  have hzero : (((1 : Int) - 1) * per_page).toNat = 0 := by norm_num
  refine ⟨?_, ?_, ?_, ?_, ?_, ?_⟩
  · intro h
    simp only [get_customers]
    rw [if_pos h]
  · intro p hp
    simp only [get_customers] at hp
    by_cases h : page < 1
    · rw [if_pos h] at hp
      cases hp
    · rw [if_neg h] at hp
      cases hp
      rw [paginate, if_neg h]
      calc (List.take (min per_page 100).toNat
              (List.drop ((page - 1) * min per_page 100).toNat db.customers)).length
        ≤ (min per_page 100).toNat := (List.length_take ..).trans_le (min_le_left _ _)
        _ ≤ (100 : Int).toNat := Int.toNat_le_toNat (min_le_right _ _)
        _ = 100 := rfl
  · intro h
    constructor
    · simp only [get_mechanics, ListResult.itemsOf, paginate]
      rw [if_pos h]
    · simp only [get_parts, mechanic_required_found hu, ListResult.itemsOf, paginate]
      rw [if_pos h]
  · intro h1 h2
    simp only [get_mechanics, ListResult.itemsOf, paginate]
    rw [if_neg (not_lt.mpr h1), List.drop_eq_nil_of_le h2, List.take_nil]
  · intro h
    constructor
    · simp only [get_mechanics, ListResult.itemsOf, paginate]
      rw [if_neg hone, hzero, List.drop_zero]
    · rw [List.length_take]
      exact min_eq_left h
  · intro h
    simp only [get_parts, mechanic_required_found hu, ListResult.itemsOf, paginate]
    rw [if_neg hone, hzero, List.drop_zero]

/-- C8, evaluated: with page 0 the customer listing answers 400 while
the mechanic and inventory listings answer empty 200s; with page 1 and
page size 2 the mechanic listing returns both stored mechanics. -/
theorem C8_pagination_policy_witness :
    get_customers dbFresh 0 10 = .err ⟨400, "Page number must be greater than 0"⟩ ∧
    (get_mechanics dbFresh 0 10).itemsOf = some [] ∧
    (get_parts dbFresh 1 0 10).itemsOf = some [] ∧
    (get_mechanics dbFresh 1 2).itemsOf = some (dbFresh.mechanics.take 2) ∧
    (dbFresh.mechanics.take 2).length = 2 :=
  ⟨(C8_pagination_policy dbFresh 1 0 10 ⟨1, "Bob", "brakes", "pw"⟩ rfl).1 (by decide),
   ((C8_pagination_policy dbFresh 1 0 10 ⟨1, "Bob", "brakes", "pw"⟩ rfl).2.2.1 (by decide)).1,
   ((C8_pagination_policy dbFresh 1 0 10 ⟨1, "Bob", "brakes", "pw"⟩ rfl).2.2.1 (by decide)).2,
   ((C8_pagination_policy dbFresh 1 0 2 ⟨1, "Bob", "brakes", "pw"⟩ rfl).2.2.2.2.1
      (by decide)).1,
   ((C8_pagination_policy dbFresh 1 0 2 ⟨1, "Bob", "brakes", "pw"⟩ rfl).2.2.2.2.1
      (by decide)).2⟩

/-- C9: the `password` field name is absent from every serialized
Mechanic or Customer payload the routes produce: customer list items
and single reads (schema-level `load_only`), mechanics nested in ticket
responses (schema-level `exclude`), and the mechanic list, single-read,
create, update and top-mechanics payloads (explicit `pop` after the
dump). -/
theorem C9_password_never_serialized :
    "password" ∉ get_customers_itemFields ∧
    "password" ∉ get_customer_outputFields ∧
    "password" ∉ ticketNestedMechanicFields ∧
    "password" ∉ get_mechanics_itemFields ∧
    "password" ∉ get_mechanic_outputFields ∧
    "password" ∉ create_mechanic_outputFields ∧
    "password" ∉ update_mechanic_outputFields ∧
    "password" ∉ top_mechanics_itemFields := by
  refine ⟨?_, ?_, ?_, ?_, ?_, ?_, ?_, ?_⟩ <;> decide

/-- C10: the mechanic self-update and self-delete handlers authorize
solely by comparing the token's subject id with the path id — for every
store (in particular one where the subject resolves only to a customer)
a self-request is never answered 403 — and when the mechanic row
exists, the update applies the `setattr` loop and the delete removes
the row together with all of its ticket associations. -/
theorem C10_mechanic_self_service_skips_role_check (db : Db) (s : Nat)
    (data : List (String × String)) :
    (update_mechanic db s s data).1.status ≠ 403 ∧
    (delete_mechanic db s s).1.status ≠ 403 ∧
    (∀ m, findMechanic db.mechanics s = some m →
      update_mechanic db s s data =
        (.okMech (data.foldl setMechAttr m),
         { db with mechanics := updateMechanics db.mechanics s (data.foldl setMechAttr m) })) ∧
    (∀ m, findMechanic db.mechanics s = some m →
      (delete_mechanic db s s).1.status = 200 ∧
      (delete_mechanic db s s).2.mechanics = deleteFirstMechanic db.mechanics s ∧
      ∀ t ∈ (delete_mechanic db s s).2.tickets, s ∉ t.mechanics) := by
  have hself : ¬ (s ≠ s) := fun h => h rfl
  refine ⟨?_, ?_, ?_, ?_⟩
  · simp only [update_mechanic]
    rw [if_neg hself]
    cases hfm : findMechanic db.mechanics s with
    | none => exact show (404 : Nat) ≠ 403 by decide
    | some m => exact show (200 : Nat) ≠ 403 by decide
  · simp only [delete_mechanic]
    rw [if_neg hself]
    cases hfm : findMechanic db.mechanics s with
    | none => exact show (404 : Nat) ≠ 403 by decide
    | some m => exact show (200 : Nat) ≠ 403 by decide
  · intro m hm
    simp only [update_mechanic, hm]
    rw [if_neg hself]
  · intro m hm
    simp only [delete_mechanic, hm]
    rw [if_neg hself]
    refine ⟨rfl, rfl, ?_⟩
    intro t ht hs
    rcases List.mem_map.mp ht with ⟨t0, _, rfl⟩
    have := List.of_mem_filter hs
    simp at this

/-- C10, evaluated: in `dbSelfService` subject 3 self-updates and the
delete path reports 200. -/
theorem C10_mechanic_self_service_witness :
    (update_mechanic dbSelfService 3 3 [("name", "New")]).1.status ≠ 403 ∧
    update_mechanic dbSelfService 3 3 [("name", "New")] =
      (.okMech ([("name", "New")].foldl setMechAttr ⟨3, "Mia", "engines", "pw"⟩),
       { dbSelfService with
         mechanics := updateMechanics dbSelfService.mechanics 3
           ([("name", "New")].foldl setMechAttr ⟨3, "Mia", "engines", "pw"⟩) }) ∧
    (delete_mechanic dbSelfService 3 3).1.status = 200 :=
  ⟨(C10_mechanic_self_service_skips_role_check dbSelfService 3 [("name", "New")]).1,
   (C10_mechanic_self_service_skips_role_check dbSelfService 3 [("name", "New")]).2.2.1
      ⟨3, "Mia", "engines", "pw"⟩ rfl,
   ((C10_mechanic_self_service_skips_role_check dbSelfService 3 [("name", "New")]).2.2.2
      ⟨3, "Mia", "engines", "pw"⟩ rfl).1⟩

end WorkshopApi
